import Mathlib

/-!
# A shallow embedding of the go-starfighter HTTP client

This file embeds the `starfighter` Go package (`client.go`, `error.go`, and the
data-transfer structs) into Lean and proves properties of the embedding.

Modelling conventions:

* JSON values are the inductive `Json`; a decoded `map[string]interface` value
  is an association list `JsonObj` (`jlookup` is Go's map indexing, returning
  the nil interface, i.e. `none`, for a missing key).
* An HTTP response body is a `Body`: either `malformed` (bytes that are not a
  single well-formed JSON value) or `wellFormed j` for a JSON value `j`.
* The HTTP transport (`http.Client.Do`) is a function field `Do` of `Client`,
  returning `Except String Response`; a `String` on the left is the
  transport-level error. `http.NewRequest` is modelled as total: its only
  failure modes (an unparsable method or URL) are not exercised by anything in
  the repository or in the properties below.
* Go functions that can `panic` (failed type assertions) return through an
  `Exec` / `CallResult` layer with an explicit `panicked` constructor.
* Methods take the receiver `Client` and return it as the second component of
  the result, so that frame properties about the receiver are statable.
-/

namespace Starfighter

/-- A JSON value, as produced by `encoding/json` decoding into `interface`:
objects become string-keyed maps, arrays become slices, numbers, strings,
booleans and null become the corresponding scalars.  (Go decodes numbers to
`float64`; every number in this development is integral, so `Int` is used.) -/
inductive Json where
  | null : Json
  | bool (b : Bool) : Json
  | num (n : Int) : Json
  | str (s : String) : Json
  | arr (elems : List Json) : Json
  | obj (fields : List (String × Json)) : Json


/-- A decoded `map[string]interface` value. -/
abbrev JsonObj := List (String × Json)

/-- Go map indexing `m[k]` on a decoded JSON object: `none` is the nil
interface returned for a missing key. -/
def jlookup : JsonObj → String → Option Json
  | [], _ => none
  | (k, v) :: rest, key => if k = key then some v else jlookup rest key

/-- The raw bytes of an HTTP response body, abstracted: either not a single
well-formed JSON value, or the JSON value the bytes denote. -/
inductive Body where
  | malformed (raw : String) : Body
  | wellFormed (j : Json) : Body


/-- An HTTP response (`http.Response`): the fields the code reads. -/
structure Response where
  StatusCode : Int
  ResBody : Body


/-- An outbound HTTP request (`http.Request`): the fields the code sets.
`body` is the serialized request body, `none` when the request has no body. -/
structure Request where
  method : String
  url : String
  headers : List (String × String)
  body : Option String


/-- `Client` from client.go lines 18-26: API token, API location, and the
HTTP client to use.  The embedded `http.Client` is abstracted to its `Do`
method: a transport function from a request to a response or a
transport-level error. -/
structure Client where
  Token : String
  Location : String
  Do : Request → Except String Response

/-- `AuthHeader` contains the Starfighter Authorization Header. -/
def AuthHeader : String := "X-Starfighter-Authorization"

/-- `APILocation` sets the Starfighter API Location. -/
def APILocation : String := "https://api.stockfighter.io/ob/api"

/-- Line 30 of client.go: `req.Header.Add(AuthHeader, c.Token)`.  A request
built by `http.NewRequest` carries no headers, so after the `Add` the header
list is exactly the old list with `(AuthHeader, token)` appended. -/
def withAuth (c : Client) (req : Request) : Request :=
  { req with headers := req.headers ++ [(AuthHeader, c.Token)] }

/-- `CallReq` (client.go lines 29-32) sets the authorization header and runs
the request through the transport. -/
def CallReq (c : Client) (req : Request) : Except String Response × Client :=
  (c.Do (withAuth c req), c)

/-- Lines 40-49 of `Call`: request construction.  The source first builds a
request with no body, then — when `data == nil` — rebuilds it with a buffer
holding `json.Encoder.Encode(data)`, which for the nil interface writes the
bytes `null` followed by a newline (an encode of nil never fails, so the
error return on line 45 is dead).  A non-nil `data` is never serialized: the
first, body-less request is kept. -/
def buildRequest (c : Client) (method endpoint : String) (data : Option Json) :
    Request :=
  match data with
  | none =>
      { method := method, url := c.Location ++ endpoint, headers := [],
        body := some "null\n" }
  | some _ =>
      { method := method, url := c.Location ++ endpoint, headers := [],
        body := none }

/-- The request `Call` hands to the transport: the built request with the
authorization header attached (lines 40-49 composed with line 30). -/
def sentRequest (c : Client) (method endpoint : String) (data : Option Json) :
    Request :=
  withAuth c (buildRequest c method endpoint data)

/-- Lines 68-70 of `Call`: `body := map[string]interface\x7b\x7d \x7b\x7d` followed by
`decoder.Decode(body)`.  `Decode` first scans one JSON value off the stream
(failing with a syntax error on malformed input) and then unmarshals into its
argument; unmarshalling demands a non-nil pointer, and `body` is passed as a
map value, not `&body`, so every well-formed input fails with
`InvalidUnmarshalError`.  The decode therefore fails for every body. -/
def decodeNonPtr : Body → Except String JsonObj
  | .malformed _ => .error "invalid character in JSON input"
  | .wellFormed _ => .error "json: Unmarshal(non-pointer map value)"

/-- `APIError` from error.go: for when the request processes, but returns
ok = false.  Carries the HTTP status code and the message from the JSON
response. -/
structure APIError where
  Code : Int
  Message : String


/-- `(*APIError).Error` from error.go lines 13-15. -/
def APIError.ErrorString (a : APIError) : String :=
  "starfighter api error (" ++ toString a.Code ++ "): " ++ a.Message

/-- The `error` values `Call` can return: the transport error of line 58
(surfaced unchanged), the JSON decode error of line 72, or an `APIError`
built on lines 78-81. -/
inductive GoError where
  | transport (e : String) : GoError
  | jsonDecode (e : String) : GoError
  | api (e : APIError) : GoError


/-- Outcome of the error-check block (lines 75-84 of `Call`): either the
`apiErr` value that is returned (possibly nil), or a runtime panic. -/
inductive BranchResult where
  | ret (apiErr : Option APIError) : BranchResult
  | panicked : BranchResult


/-- Lines 75-84 of `Call`: `apiErr` starts nil; the source's condition is
`body["ok"] != false`, i.e. the `APIError` is built whenever the `ok` entry
is anything OTHER than the boolean `false` (true, missing, or non-boolean);
building it evaluates the unchecked type assertion `body["error"].(string)`,
which panics unless the `error` entry holds a string. -/
def checkOk (statusCode : Int) (body : JsonObj) : BranchResult :=
  match jlookup body "ok" with
  | some (.bool false) => .ret none
  | _ =>
      match jlookup body "error" with
      | some (.str s) => .ret (some { Code := statusCode, Message := s })
      | _ => .panicked

/-- The result of `Call` (client.go lines 38-85): either a normal return of
the triple `(body, copy, err)` — with `none` standing for a nil map, nil
buffer or nil error — or a runtime panic.  The retained raw-body copy is
modelled as the response body the `TeeReader` mirrored. -/
inductive CallResult where
  | ret (body : Option JsonObj) (copy : Option Body) (err : Option GoError) :
      CallResult
  | panicked : CallResult


/-- `Call` (client.go lines 38-85): build the request (lines 40-53), run it
(lines 56-59, returning the transport error unchanged), decode the body into
the generic map (lines 64-73, returning the copy with the decode error), run
the error check (lines 75-82) and return `(body, copy, apiErr)` (line 84). -/
def Call (c : Client) (method endpoint : String) (data : Option Json) :
    CallResult × Client :=
  match CallReq c (buildRequest c method endpoint data) with
  | (.error e, c) => (.ret none none (some (.transport e)), c)
  | (.ok resp, c) =>
      match decodeNonPtr resp.ResBody with
      | .error e => (.ret none (some resp.ResBody) (some (.jsonDecode e)), c)
      | .ok body =>
          match checkOk resp.StatusCode body with
          | .panicked => (.panicked, c)
          | .ret apiErr =>
              (.ret (some body) (some resp.ResBody) (apiErr.map .api), c)

/-- A Go computation that either returns a value or panics. -/
inductive Exec (α : Type) where
  | ret (a : α) : Exec α
  | panicked : Exec α


/-- `Heartbeat` (client.go lines 88-91): calls `/heartbeat` and reports
whether the returned error was nil. -/
def Heartbeat (c : Client) : Exec Bool × Client :=
  match Call c "GET" "/heartbeat" none with
  | (.panicked, c) => (.panicked, c)
  | (.ret _ _ err, c) => (.ret err.isNone, c)

/-- `VenueHealthCheck` (client.go lines 94-97): calls the venue heartbeat
endpoint and reports whether the returned error was nil. -/
def VenueHealthCheck (c : Client) (venue : String) : Exec Bool × Client :=
  match Call c "GET" ("/venues/" ++ venue ++ "/heartbeat") none with
  | (.panicked, c) => (.panicked, c)
  | (.ret _ _ err, c) => (.ret err.isNone, c)

/-- `Stock` represents a symbol on the venue. -/
structure Stock where
  Name : String
  Symbol : String


/-- `ListVenueStocks` (client.go lines 100-116): on an error from `Call`
return `(nil, err)`; otherwise run `resp["symbols"].([]interface)` (line 106)
and then range over `resp["symbols"].([]map[string]interface)` (line 108).
A JSON array decoded into `interface` has dynamic type `[]interface`, never
`[]map[string]interface`, so the line-108 assertion panics whenever the
line-106 assertion succeeded; if `symbols` is missing or not an array the
line-106 assertion already panics.  The returned pair is
`(value-or-nil, error-or-nil)`. -/
def ListVenueStocks (c : Client) (venue : String) :
    Exec (Option (List Stock) × Option GoError) × Client :=
  match Call c "GET" ("/venues/" ++ venue ++ "/stocks") none with
  | (.panicked, c) => (.panicked, c)
  | (.ret _ _ (some e), c) => (.ret (none, some e), c)
  | (.ret body _ none, c) =>
      match jlookup (body.getD []) "symbols" with
      | some (.arr _) => (.panicked, c)
      | _ => (.panicked, c)

/-! ## The typed response structures and their JSON decoding

The remaining wrapper methods re-decode the retained raw body into a typed
structure with `json.NewDecoder(copy).Decode(&x)`.  The field decoders below
follow `encoding/json` unmarshalling into structs: fields are matched by their
json tag, a missing field or a JSON `null` leaves the field at its zero value,
and a type mismatch fails the decode.  `time.Time` fields are modelled as
`GoTime`, a wrapper around the RFC 3339 string; the format validation its
`UnmarshalJSON` performs on that string is not modelled, since no property
below reaches a timestamp (the typed decodes are unreachable: `Call` never
returns a nil error). -/

/-- A `time.Time` struct field, carrying the RFC 3339 string it was decoded
from (`""` is the zero value). -/
structure GoTime where
  rfc3339 : String

def goTimeZero : GoTime := { rfc3339 := "" }

/-- Decode a JSON value into a string-typed struct field. -/
def getStr (o : JsonObj) (k : String) : Except String String :=
  match jlookup o k with
  | none => .ok ""
  | some .null => .ok ""
  | some (.str s) => .ok s
  | some _ => .error ("json: cannot unmarshal value into string field " ++ k)

/-- Decode a JSON value into an int-typed struct field. -/
def getInt (o : JsonObj) (k : String) : Except String Int :=
  match jlookup o k with
  | none => .ok 0
  | some .null => .ok 0
  | some (.num n) => .ok n
  | some _ => .error ("json: cannot unmarshal value into int field " ++ k)

/-- Decode a JSON value into a bool-typed struct field. -/
def getBool (o : JsonObj) (k : String) : Except String Bool :=
  match jlookup o k with
  | none => .ok false
  | some .null => .ok false
  | some (.bool b) => .ok b
  | some _ => .error ("json: cannot unmarshal value into bool field " ++ k)

/-- Decode a JSON value into a `time.Time` struct field. -/
def getTime (o : JsonObj) (k : String) : Except String GoTime :=
  match jlookup o k with
  | none => .ok goTimeZero
  | some .null => .ok goTimeZero
  | some (.str s) => .ok { rfc3339 := s }
  | some _ => .error ("json: cannot unmarshal value into time field " ++ k)

/-- Decode a JSON value into a slice-typed struct field, given the element
decoder (a missing field or `null` leaves the nil slice). -/
def getList {α : Type} (o : JsonObj) (k : String)
    (dec : Json → Except String α) : Except String (List α) :=
  match jlookup o k with
  | none => .ok []
  | some .null => .ok []
  | some (.arr xs) => xs.mapM dec
  | some _ => .error ("json: cannot unmarshal value into slice field " ++ k)

/-- `StockQuote` shows a quote for a stock (json tags as in the source; note
the `quoteTime` tag on `QuoteAt`). -/
structure StockQuote where
  Symbol : String
  Venue : String
  Bid : Int
  Ask : Int
  BidSize : Int
  AskSize : Int
  BidDepth : Int
  AskDepth : Int
  Last : Int
  LastSize : Int
  LastTrade : GoTime
  QuoteAt : GoTime

def stockQuoteZero : StockQuote :=
  { Symbol := "", Venue := "", Bid := 0, Ask := 0, BidSize := 0, AskSize := 0,
    BidDepth := 0, AskDepth := 0, Last := 0, LastSize := 0,
    LastTrade := goTimeZero, QuoteAt := goTimeZero }

def decodeStockQuoteObj (o : JsonObj) : Except String StockQuote := do
  let symbol ← getStr o "symbol"
  let venue ← getStr o "venue"
  let bid ← getInt o "bid"
  let ask ← getInt o "ask"
  let bidSize ← getInt o "bidSize"
  let askSize ← getInt o "askSize"
  let bidDepth ← getInt o "bidDepth"
  let askDepth ← getInt o "askDepth"
  let last ← getInt o "last"
  let lastSize ← getInt o "lastSize"
  let lastTrade ← getTime o "lastTrade"
  let quoteAt ← getTime o "quoteTime"
  .ok { Symbol := symbol, Venue := venue, Bid := bid, Ask := ask,
        BidSize := bidSize, AskSize := askSize, BidDepth := bidDepth,
        AskDepth := askDepth, Last := last, LastSize := lastSize,
        LastTrade := lastTrade, QuoteAt := quoteAt }

/-- The anonymous ask/bid entry struct of `OrderBook`. -/
structure BookEntry where
  IsBuy : Bool
  Price : Int
  Qty : Int

def decodeBookEntry (j : Json) : Except String BookEntry :=
  match j with
  | .null => .ok { IsBuy := false, Price := 0, Qty := 0 }
  | .obj o => do
      let isBuy ← getBool o "isBuy"
      let price ← getInt o "price"
      let qty ← getInt o "qty"
      .ok { IsBuy := isBuy, Price := price, Qty := qty }
  | _ => .error "json: cannot unmarshal value into book entry"

/-- `OrderBook` represents the current state of an order. -/
structure OrderBook where
  Asks : List BookEntry
  Bids : List BookEntry
  Symbol : String
  Timestamp : GoTime
  Venue : String

def orderBookZero : OrderBook :=
  { Asks := [], Bids := [], Symbol := "", Timestamp := goTimeZero, Venue := "" }

def decodeOrderBookObj (o : JsonObj) : Except String OrderBook := do
  let asks ← getList o "asks" decodeBookEntry
  let bids ← getList o "bids" decodeBookEntry
  let symbol ← getStr o "symbol"
  let ts ← getTime o "ts"
  let venue ← getStr o "venue"
  .ok { Asks := asks, Bids := bids, Symbol := symbol, Timestamp := ts,
        Venue := venue }

/-- The anonymous fill-event struct of `OrderResult` / `OrderResultAlt`. -/
structure Fill where
  Price : Int
  Qty : Int
  Timestamp : GoTime

def decodeFill (j : Json) : Except String Fill :=
  match j with
  | .null => .ok { Price := 0, Qty := 0, Timestamp := goTimeZero }
  | .obj o => do
      let price ← getInt o "price"
      let qty ← getInt o "qty"
      let ts ← getTime o "ts"
      .ok { Price := price, Qty := qty, Timestamp := ts }
  | _ => .error "json: cannot unmarshal value into fill"

/-- `OrderResult` details the result of an order (the `Type` field carries
the json tag `type`). -/
structure OrderResult where
  Symbol : String
  Venue : String
  Direction : String
  OriginalQty : Int
  Qty : Int
  Price : Int
  OrdType : String
  ID : Int
  Account : String
  Timestamp : GoTime
  Fills : List Fill
  TotalFilled : Int
  Open : Bool

def orderResultZero : OrderResult :=
  { Symbol := "", Venue := "", Direction := "", OriginalQty := 0, Qty := 0,
    Price := 0, OrdType := "", ID := 0, Account := "", Timestamp := goTimeZero,
    Fills := [], TotalFilled := 0, Open := false }

/-- Shared decoder for `OrderResult` and `OrderResultAlt`: the two structs
differ only in the json tag of the order-type field (`type` vs `orderType`),
passed here as `typeTag`. -/
def decodeOrderResultWith (typeTag : String) (o : JsonObj) :
    Except String OrderResult := do
  let symbol ← getStr o "symbol"
  let venue ← getStr o "venue"
  let direction ← getStr o "direction"
  let originalQty ← getInt o "originalQty"
  let qty ← getInt o "qty"
  let price ← getInt o "price"
  let t ← getStr o typeTag
  let id ← getInt o "id"
  let account ← getStr o "account"
  let ts ← getTime o "ts"
  let fills ← getList o "fills" decodeFill
  let totalFilled ← getInt o "totalFilled"
  let opn ← getBool o "open"
  .ok { Symbol := symbol, Venue := venue, Direction := direction,
        OriginalQty := originalQty, Qty := qty, Price := price, OrdType := t,
        ID := id, Account := account, Timestamp := ts, Fills := fills,
        TotalFilled := totalFilled, Open := opn }

def decodeOrderResultObj : JsonObj → Except String OrderResult :=
  decodeOrderResultWith "type"

/-- `OrderResultAlt` is the same thing as `OrderResult`, except its
order-type field uses the json tag `orderType` instead of `type`. -/
def decodeOrderResultAltObj : JsonObj → Except String OrderResult :=
  decodeOrderResultWith "orderType"

/-- `OrderResultList` shows a list of orders (json tag `orders`, elements
decoded like `OrderResultAlt`). -/
structure OrderResultList where
  Orders : List OrderResult

def orderResultListZero : OrderResultList := { Orders := [] }

def decodeOrderResultAltElem (j : Json) : Except String OrderResult :=
  match j with
  | .null => .ok orderResultZero
  | .obj o => decodeOrderResultAltObj o
  | _ => .error "json: cannot unmarshal value into order result"

def decodeOrderResultListObj (o : JsonObj) : Except String OrderResultList := do
  let orders ← getList o "orders" decodeOrderResultAltElem
  .ok { Orders := orders }

/-- The typed re-decode the wrappers perform on the retained raw body
(`json.NewDecoder(copy).Decode(&x)`): scan the raw bytes, unmarshal a JSON
object field-by-field into the struct.  The pair returned is the struct (its
zero value when the decode failed — `Decode` may leave a partial fill, which
nothing here observes) together with the error-or-nil. -/
def decodeBody {α : Type} (dec : JsonObj → Except String α) (zero : α)
    (copy : Option Body) : α × Option GoError :=
  match copy with
  | none => (zero, some (.jsonDecode "EOF"))
  | some (.malformed _) =>
      (zero, some (.jsonDecode "invalid character in JSON input"))
  | some (.wellFormed .null) => (zero, none)
  | some (.wellFormed (.obj o)) =>
      match dec o with
      | .ok v => (v, none)
      | .error e => (zero, some (.jsonDecode e))
  | some (.wellFormed _) =>
      (zero, some (.jsonDecode "json: cannot unmarshal value into struct"))

/-- The shape shared by the seven typed wrapper methods (client.go lines
118-231): run `Call` with the given method, endpoint and payload; on an error
return `(nil, err)`; otherwise decode the retained raw body into the typed
struct and return its address together with the decode's error, exactly as
each wrapper's final `return &x, err` does. -/
def wrap {α : Type} (c : Client) (method endpoint : String) (data : Option Json)
    (dec : Option Body → α × Option GoError) :
    Exec (Option α × Option GoError) × Client :=
  match Call c method endpoint data with
  | (.panicked, c) => (.panicked, c)
  | (.ret _ _ (some e), c) => (.ret (none, some e), c)
  | (.ret _ copy none, c) =>
      let r := dec copy
      (.ret (some r.1, r.2), c)

/-- `GetStockOrderbook` (client.go lines 119-131). -/
def GetStockOrderbook (c : Client) (venue stock : String) :
    Exec (Option OrderBook × Option GoError) × Client :=
  wrap c "GET" ("/venues/" ++ venue ++ "/stocks/" ++ stock) none
    (decodeBody decodeOrderBookObj orderBookZero)

/-- `PlaceStockOrder` (client.go lines 134-155): posts to the stock's orders
endpoint with the JSON payload built from account, venue, stock, price,
quantity, direction and order type (the Go map literal's entries, in program
order). -/
def PlaceStockOrder (c : Client) (account venue stock : String)
    (price qty : Int) (direction ordertype : String) :
    Exec (Option OrderResult × Option GoError) × Client :=
  wrap c "POST" ("/venues/" ++ venue ++ "/stocks/" ++ stock ++ "/orders")
    (some (.obj [("account", .str account), ("venue", .str venue),
                 ("stock", .str stock), ("price", .num price),
                 ("qty", .num qty), ("direction", .str direction),
                 ("orderType", .str ordertype)]))
    (decodeBody decodeOrderResultObj orderResultZero)

/-- `QuoteStock` (client.go lines 159-171). -/
def QuoteStock (c : Client) (venue stock : String) :
    Exec (Option StockQuote × Option GoError) × Client :=
  wrap c "GET" ("/venues/" ++ venue ++ "/stocks/" ++ stock ++ "/quote") none
    (decodeBody decodeStockQuoteObj stockQuoteZero)

/-- `GetOrderStatus` (client.go lines 174-186); `%d` on the int64 order id is
`toString`. -/
def GetOrderStatus (c : Client) (venue stock : String) (order : Int) :
    Exec (Option OrderResult × Option GoError) × Client :=
  wrap c "GET"
    ("/venues/" ++ venue ++ "/stocks/" ++ stock ++ "/orders/" ++ toString order)
    none (decodeBody decodeOrderResultAltObj orderResultZero)

/-- `CancelOrder` (client.go lines 189-201). -/
def CancelOrder (c : Client) (venue stock : String) (order : Int) :
    Exec (Option OrderResult × Option GoError) × Client :=
  wrap c "DELETE"
    ("/venues/" ++ venue ++ "/stocks/" ++ stock ++ "/orders/" ++ toString order)
    none (decodeBody decodeOrderResultAltObj orderResultZero)

/-- `ListVenueOrderStatus` (client.go lines 204-216). -/
def ListVenueOrderStatus (c : Client) (venue account : String) :
    Exec (Option OrderResultList × Option GoError) × Client :=
  wrap c "GET" ("/venues/" ++ venue ++ "/accounts/" ++ account ++ "/orders")
    none (decodeBody decodeOrderResultListObj orderResultListZero)

/-- `ListVenueStockOrderStatus` (client.go lines 219-231).  The endpoint is
built by `fmt.Sprintf("/venues/%s/accounts/%s/stocks/%s/orders", venue,
stock, account)` — the source passes `stock` into the accounts segment and
`account` into the stocks segment, in that order. -/
def ListVenueStockOrderStatus (c : Client) (venue stock account : String) :
    Exec (Option OrderResultList × Option GoError) × Client :=
  wrap c "GET"
    ("/venues/" ++ venue ++ "/accounts/" ++ stock ++ "/stocks/" ++ account ++
      "/orders")
    none (decodeBody decodeOrderResultListObj orderResultListZero)

/-! ## Shape lemmas

`Call` can only ever return a transport error or a JSON decode error: the
generic decode targets a non-pointer map value and fails on every body, so
the `ok`-check (and with it any `APIError` or panic) is unreachable, and the
receiver is returned untouched. -/

theorem call_errs (c : Client) (m e : String) (d : Option Json) :
    (∃ b cp err, (Call c m e d).1 = .ret b cp (some err)) ∧
      (Call c m e d).2 = c := by
  unfold Call CallReq
  cases h : c.Do (withAuth c (buildRequest c m e d)) with
  | error te => exact ⟨⟨none, none, .transport te, rfl⟩, rfl⟩
  | ok resp =>
      obtain ⟨status, rb⟩ := resp
      cases rb with
      | malformed raw =>
          exact ⟨⟨none, some (.malformed raw),
            .jsonDecode "invalid character in JSON input", rfl⟩, rfl⟩
      | wellFormed j =>
          exact ⟨⟨none, some (.wellFormed j),
            .jsonDecode "json: Unmarshal(non-pointer map value)", rfl⟩, rfl⟩

theorem wrap_shape {α : Type} (c : Client) (m e : String) (d : Option Json)
    (dec : Option Body → α × Option GoError) :
    (∃ err, (wrap c m e d dec).1 = .ret (none, some err)) ∧
      (wrap c m e d dec).2 = c := by
  obtain ⟨⟨b, cp, err, h1⟩, h2⟩ := call_errs c m e d
  unfold wrap
  rcases hc : Call c m e d with ⟨r, c'⟩
  rw [hc] at h1 h2
  have h1' : r = .ret b cp (some err) := h1
  have h2' : c' = c := h2
  subst h1' h2'
  exact ⟨⟨err, rfl⟩, rfl⟩

theorem heartbeat_shape (c : Client) :
    (Heartbeat c).1 = .ret false ∧ (Heartbeat c).2 = c := by
  obtain ⟨⟨b, cp, err, h1⟩, h2⟩ := call_errs c "GET" "/heartbeat" none
  unfold Heartbeat
  rcases hc : Call c "GET" "/heartbeat" none with ⟨r, c'⟩
  rw [hc] at h1 h2
  have h1' : r = .ret b cp (some err) := h1
  have h2' : c' = c := h2
  subst h1' h2'
  exact ⟨rfl, rfl⟩

theorem venueHealthCheck_shape (c : Client) (venue : String) :
    (VenueHealthCheck c venue).1 = .ret false ∧
      (VenueHealthCheck c venue).2 = c := by
  obtain ⟨⟨b, cp, err, h1⟩, h2⟩ :=
    call_errs c "GET" ("/venues/" ++ venue ++ "/heartbeat") none
  unfold VenueHealthCheck
  rcases hc : Call c "GET" ("/venues/" ++ venue ++ "/heartbeat") none
    with ⟨r, c'⟩
  rw [hc] at h1 h2
  have h1' : r = .ret b cp (some err) := h1
  have h2' : c' = c := h2
  subst h1' h2'
  exact ⟨rfl, rfl⟩

theorem listVenueStocks_shape (c : Client) (venue : String) :
    (∃ err, (ListVenueStocks c venue).1 = .ret (none, some err)) ∧
      (ListVenueStocks c venue).2 = c := by
  obtain ⟨⟨b, cp, err, h1⟩, h2⟩ :=
    call_errs c "GET" ("/venues/" ++ venue ++ "/stocks") none
  unfold ListVenueStocks
  rcases hc : Call c "GET" ("/venues/" ++ venue ++ "/stocks") none with ⟨r, c'⟩
  rw [hc] at h1 h2
  have h1' : r = .ret b cp (some err) := h1
  have h2' : c' = c := h2
  subst h1' h2'
  exact ⟨⟨err, rfl⟩, rfl⟩

/-! ## Concrete clients used to evaluate the pipeline

The transport is injected through the `Do` field, so a fake transport can
observe the outbound request or reply with a canned response. -/

/-- Render a request body for the capturing transport. -/
def describeBody : Option String → String
  | none => "(no body)"
  | some s => s

/-- A fake transport that rejects every request with an error spelling out
the request it received: method, full URL, and body. -/
def captureTransport : Request → Except String Response :=
  fun req => .error (req.method ++ " " ++ req.url ++ " " ++ describeBody req.body)

/-- A client over the capturing transport. -/
def captureClient : Client :=
  { Token := "tok", Location := "https://api.test", Do := captureTransport }

/-- A client whose transport always answers HTTP 400 with the body
`{"ok": false, "error": "insufficient funds"}`. -/
def okFalseClient : Client :=
  { Token := "tok", Location := "https://api.test",
    Do := fun _ => .ok ⟨400, .wellFormed (.obj
      [("ok", .bool false), ("error", .str "insufficient funds")])⟩ }

/-- A client whose transport always answers HTTP 200 with the body
`{"ok": true, "symbols": [{"name":"Apple","symbol":"AAPL"}]}`. -/
def applStocksClient : Client :=
  { Token := "tok", Location := "https://api.test",
    Do := fun _ => .ok ⟨200, .wellFormed (.obj
      [("ok", .bool true),
       ("symbols", .arr [.obj [("name", .str "Apple"),
                               ("symbol", .str "AAPL")]])])⟩ }

/-- A client whose transport always fails at the connection level. -/
def downClient : Client :=
  { Token := "tok", Location := "https://api.test",
    Do := fun _ => .error "dial tcp: connection refused" }

/-- `true` exactly when `Call` returned with a nil error. -/
def CallResult.succeeded : CallResult → Bool
  | .ret _ _ none => true
  | _ => false

/-! ## The claims -/

/-- Claim C1.  On the response `400 {"ok": false, "error": "insufficient
funds"}` the claim expects `Call` to fail with `APIError 400 "insufficient
funds"`.  The code instead returns the JSON decode error (the generic decode
targets a non-pointer map value and fails before the `ok` field is ever
inspected); and even the error-check block itself, run on that decoded body,
leaves `apiErr` nil because the source's condition `body["ok"] != false`
builds the error only when `ok` is NOT the boolean false. -/
theorem C1_ok_false_gives_decode_error_not_api_error :
    (Call okFalseClient "POST" "/orders" none).1 =
      .ret none
        (some (.wellFormed (.obj
          [("ok", .bool false), ("error", .str "insufficient funds")])))
        (some (.jsonDecode "json: Unmarshal(non-pointer map value)"))
    ∧ checkOk 400 [("ok", .bool false), ("error", .str "insufficient funds")] =
      .ret none :=
  ⟨rfl, rfl⟩

/-- Claim C2.  The claim expects a non-nil payload to be serialized as the
request body and a nil payload to send no body.  The source's condition is
`if data == nil`, so the behaviour is inverted: with a non-nil payload the
outbound request has no body, and with a nil payload the outbound request
carries the body `null` plus newline (the JSON encoding of nil).  Shown both
on the request `Call` constructs and end-to-end through a transport that
reports the request it received. -/
theorem C2_payload_condition_inverted :
    (sentRequest captureClient "POST" "/orders" (some (.obj []))).body = none
    ∧ (sentRequest captureClient "GET" "/heartbeat" none).body = some "null\n"
    ∧ (Call captureClient "POST" "/orders" (some (.obj []))).1 =
      .ret none none (some (.transport "POST https://api.test/orders (no body)"))
    ∧ (Call captureClient "GET" "/heartbeat" none).1 =
      .ret none none (some (.transport "GET https://api.test/heartbeat null\n")) :=
  ⟨rfl, rfl, rfl, rfl⟩

/-- Claim C3.  The generic decode targets a non-pointer map value, so for
every client and every call `Call` returns a non-nil error (and never
panics), `Heartbeat` and `VenueHealthCheck` return `false`, and every typed
wrapper returns a nil value with a non-nil error — no wrapper ever reaches
its typed decode through a successful `Call`. -/
theorem C3_generic_decode_always_fails (c : Client) (m e : String)
    (d : Option Json) (v s a acct direction otype : String)
    (price qty order : Int) :
    (Call c m e d).1.succeeded = false
    ∧ (Call c m e d).1 ≠ .panicked
    ∧ (Heartbeat c).1 = .ret false
    ∧ (VenueHealthCheck c v).1 = .ret false
    ∧ (∃ err, (ListVenueStocks c v).1 = .ret (none, some err))
    ∧ (∃ err, (GetStockOrderbook c v s).1 = .ret (none, some err))
    ∧ (∃ err,
        (PlaceStockOrder c acct v s price qty direction otype).1 =
          .ret (none, some err))
    ∧ (∃ err, (QuoteStock c v s).1 = .ret (none, some err))
    ∧ (∃ err, (GetOrderStatus c v s order).1 = .ret (none, some err))
    ∧ (∃ err, (CancelOrder c v s order).1 = .ret (none, some err))
    ∧ (∃ err, (ListVenueOrderStatus c v a).1 = .ret (none, some err))
    ∧ (∃ err, (ListVenueStockOrderStatus c v s a).1 = .ret (none, some err)) := by
  obtain ⟨⟨b, cp, err, h1⟩, -⟩ := call_errs c m e d
  refine ⟨by rw [h1]; rfl, by rw [h1]; exact fun hcontra => CallResult.noConfusion hcontra,
    (heartbeat_shape c).1, (venueHealthCheck_shape c v).1,
    (listVenueStocks_shape c v).1, (wrap_shape _ _ _ _ _).1,
    (wrap_shape _ _ _ _ _).1, (wrap_shape _ _ _ _ _).1,
    (wrap_shape _ _ _ _ _).1, (wrap_shape _ _ _ _ _).1,
    (wrap_shape _ _ _ _ _).1, (wrap_shape _ _ _ _ _).1⟩

/-- Claim C4.  The claim expects `PlaceStockOrder("acct1","TESTEX","FOO",
100,10,"buy","limit")` to POST its JSON payload as the request body.  Because
`Call` serializes the payload only when `data == nil`, the outbound POST
carries no body at all — while the nil-payload methods each carry the body
`null` plus newline.  Shown end-to-end through the capturing transport and on
the constructed request. -/
theorem C4_place_stock_order_payload_dropped :
    (PlaceStockOrder captureClient "acct1" "TESTEX" "FOO" 100 10 "buy"
        "limit").1 =
      .ret (none, some (.transport
        "POST https://api.test/venues/TESTEX/stocks/FOO/orders (no body)"))
    ∧ (sentRequest captureClient "POST" "/venues/TESTEX/stocks/FOO/orders"
        (some (.obj [("account", .str "acct1"), ("venue", .str "TESTEX"),
                     ("stock", .str "FOO"), ("price", .num 100),
                     ("qty", .num 10), ("direction", .str "buy"),
                     ("orderType", .str "limit")]))).body = none
    ∧ (Heartbeat captureClient).1 = .ret false
    ∧ (sentRequest captureClient "GET" "/heartbeat" none).body =
      some "null\n" :=
  ⟨rfl, rfl, rfl, rfl⟩

/-- Claim C5.  The claim expects `ListVenueStockOrderStatus(v, s, a)` to hit
`/venues/{v}/accounts/{a}/stocks/{s}/orders`.  The source passes its
arguments to `Sprintf` in the order venue, stock, account, so the stock lands
in the accounts segment and the account in the stocks segment:
`/venues/V/accounts/S/stocks/A/orders`. -/
theorem C5_stock_and_account_swapped_in_path :
    (ListVenueStockOrderStatus captureClient "V" "S" "A").1 =
      .ret (none, some (.transport
        "GET https://api.test/venues/V/accounts/S/stocks/A/orders null\n")) :=
  rfl

/-- Claim C6.  Every request `Call` hands to the transport — and every
wrapper routes through `Call` — carries exactly the header
`X-Starfighter-Authorization` with the configured token, and its URL is the
configured base URL concatenated with the operation's path; the transport is
invoked on precisely this request. -/
theorem C6_auth_header_and_base_url (c : Client) (m e : String)
    (d : Option Json) :
    (sentRequest c m e d).headers = [(AuthHeader, c.Token)]
    ∧ (sentRequest c m e d).url = c.Location ++ e
    ∧ CallReq c (buildRequest c m e d) = (c.Do (sentRequest c m e d), c) := by
  cases d <;> exact ⟨rfl, rfl, rfl⟩

/-- Claim C7.  The claim expects `ListVenueStocks` on `{"ok": true,
"symbols": [{"name":"Apple","symbol":"AAPL"}]}` to return one
`Stock{Name: "Apple", Symbol: "AAPL"}`.  The code instead returns a nil
slice with the JSON decode error: `Call`'s generic decode fails on every
body, so the wrapper returns before touching `symbols`. -/
theorem C7_list_venue_stocks_returns_decode_error :
    (ListVenueStocks applStocksClient "TESTEX").1 =
      .ret (none, some (.jsonDecode "json: Unmarshal(non-pointer map value)")) :=
  rfl

/-- Claim C8.  Whenever the transport fails, `Call` surfaces the
transport-level error unchanged (the triple `nil, nil, err` of line 58), and
that error is never an `APIError`: an `APIError` can only be built after the
transport has returned a response. -/
theorem C8_transport_error_surfaced_unchanged (c : Client) (m e : String)
    (d : Option Json) (msg : String)
    (h : c.Do (sentRequest c m e d) = .error msg) :
    (Call c m e d).1 = .ret none none (some (.transport msg))
    ∧ ∀ ae : APIError, GoError.transport msg ≠ GoError.api ae := by
  constructor
  · unfold Call CallReq
    rw [show c.Do (withAuth c (buildRequest c m e d)) = Except.error msg from h]
  · exact fun ae hcontra => GoError.noConfusion hcontra

/-- Witness for C8 at a concrete client whose transport refuses the
connection. -/
theorem C8_transport_error_surfaced_unchanged_witness :
    downClient.Do (sentRequest downClient "GET" "/heartbeat" none) =
      .error "dial tcp: connection refused"
    ∧ (Call downClient "GET" "/heartbeat" none).1 =
      .ret none none (some (.transport "dial tcp: connection refused")) :=
  ⟨rfl, (C8_transport_error_surfaced_unchanged downClient "GET" "/heartbeat"
      none "dial tcp: connection refused" rfl).1⟩

/-- Claim C9.  No operation — `CallReq`, `Call`, or any of the ten wrapper
methods — changes the client's configuration: the `Token` and `Location`
fields after each call equal those before it (in the embedding the receiver
is threaded through and returned, and every operation returns it
untouched). -/
theorem C9_client_config_unchanged (c : Client) (req : Request)
    (m e v s a acct direction otype : String) (d : Option Json)
    (price qty order : Int) :
    ((CallReq c req).2.Token = c.Token ∧
      (CallReq c req).2.Location = c.Location)
    ∧ ((Call c m e d).2.Token = c.Token ∧
      (Call c m e d).2.Location = c.Location)
    ∧ ((Heartbeat c).2.Token = c.Token ∧
      (Heartbeat c).2.Location = c.Location)
    ∧ ((VenueHealthCheck c v).2.Token = c.Token ∧
      (VenueHealthCheck c v).2.Location = c.Location)
    ∧ ((ListVenueStocks c v).2.Token = c.Token ∧
      (ListVenueStocks c v).2.Location = c.Location)
    ∧ ((GetStockOrderbook c v s).2.Token = c.Token ∧
      (GetStockOrderbook c v s).2.Location = c.Location)
    ∧ ((PlaceStockOrder c acct v s price qty direction otype).2.Token = c.Token ∧
      (PlaceStockOrder c acct v s price qty direction otype).2.Location =
        c.Location)
    ∧ ((QuoteStock c v s).2.Token = c.Token ∧
      (QuoteStock c v s).2.Location = c.Location)
    ∧ ((GetOrderStatus c v s order).2.Token = c.Token ∧
      (GetOrderStatus c v s order).2.Location = c.Location)
    ∧ ((CancelOrder c v s order).2.Token = c.Token ∧
      (CancelOrder c v s order).2.Location = c.Location)
    ∧ ((ListVenueOrderStatus c v a).2.Token = c.Token ∧
      (ListVenueOrderStatus c v a).2.Location = c.Location)
    ∧ ((ListVenueStockOrderStatus c v s a).2.Token = c.Token ∧
      (ListVenueStockOrderStatus c v s a).2.Location = c.Location) := by
  obtain ⟨-, hCall⟩ := call_errs c m e d
  have hHB := (heartbeat_shape c).2
  have hVH := (venueHealthCheck_shape c v).2
  have hLS := (listVenueStocks_shape c v).2
  exact ⟨⟨rfl, rfl⟩,
    ⟨congrArg Client.Token hCall, congrArg Client.Location hCall⟩,
    ⟨congrArg Client.Token hHB, congrArg Client.Location hHB⟩,
    ⟨congrArg Client.Token hVH, congrArg Client.Location hVH⟩,
    ⟨congrArg Client.Token hLS, congrArg Client.Location hLS⟩,
    ⟨congrArg Client.Token (wrap_shape _ _ _ _ _).2,
      congrArg Client.Location (wrap_shape _ _ _ _ _).2⟩,
    ⟨congrArg Client.Token (wrap_shape _ _ _ _ _).2,
      congrArg Client.Location (wrap_shape _ _ _ _ _).2⟩,
    ⟨congrArg Client.Token (wrap_shape _ _ _ _ _).2,
      congrArg Client.Location (wrap_shape _ _ _ _ _).2⟩,
    ⟨congrArg Client.Token (wrap_shape _ _ _ _ _).2,
      congrArg Client.Location (wrap_shape _ _ _ _ _).2⟩,
    ⟨congrArg Client.Token (wrap_shape _ _ _ _ _).2,
      congrArg Client.Location (wrap_shape _ _ _ _ _).2⟩,
    ⟨congrArg Client.Token (wrap_shape _ _ _ _ _).2,
      congrArg Client.Location (wrap_shape _ _ _ _ _).2⟩,
    ⟨congrArg Client.Token (wrap_shape _ _ _ _ _).2,
      congrArg Client.Location (wrap_shape _ _ _ _ _).2⟩⟩

/-- Claim C10.  The error-check block of `Call` (lines 75-84) is not total:
whenever the decoded body's `ok` entry is anything other than the boolean
false and its `error` entry is absent or not a string, the unchecked type
assertion `body["error"].(string)` panics instead of producing an error
value. -/
theorem C10_error_branch_panics_without_error_string (status : Int)
    (body : JsonObj) (h1 : jlookup body "ok" ≠ some (Json.bool false))
    (h2 : ∀ s, jlookup body "error" ≠ some (Json.str s)) :
    checkOk status body = .panicked := by
  unfold checkOk
  split
  · next heq => exact absurd heq h1
  · split
    · next s heq => exact absurd heq (h2 s)
    · rfl

/-- Witness for C10 at the concrete body `{"ok": true}` (ok not false, error
absent) and status 400. -/
theorem C10_error_branch_panics_without_error_string_witness :
    jlookup [("ok", Json.bool true)] "ok" ≠ some (Json.bool false)
    ∧ (∀ s, jlookup [("ok", Json.bool true)] "error" ≠ some (Json.str s))
    ∧ checkOk 400 [("ok", Json.bool true)] = .panicked :=
  ⟨by simp [jlookup], by simp [jlookup],
    C10_error_branch_panics_without_error_string 400 [("ok", Json.bool true)]
      (by simp [jlookup]) (by simp [jlookup])⟩

end Starfighter
